import Mathlib

/-!
Verification development for the rust-freely client library
(src/client/{api,client,models,handlers}.rs).

The Rust source is shallowly embedded: structs become Lean structures,
enums become inductives, `&mut self` methods become functions returning
the new state explicitly, and the external collaborators (the HTTP
transport and the serde JSON layer, which the library treats as opaque)
appear as explicit oracle parameters describing the transport outcome /
parsed response.  Machine integers (u16 status codes, u32 result codes)
are modelled as Nat: no arithmetic is performed on them anywhere in the
client code, so overflow is irrelevant.  Functions that can panic in
Rust (calls to `.unwrap()`) return a `RustOutcome` with an explicit
`panicked` constructor.
-/

namespace Freely

/-- Http method, as used by the request executor (reqwest::Method). -/
inductive Method where
  | GET
  | POST
  | DELETE
deriving DecidableEq

/-- RequestError from api_client (client.rs): HTTP status and optional reason. -/
structure RequestError where
  code : Nat
  reason : Option String
deriving DecidableEq

/-- ApiError from api_client (client.rs): the library's error enum. -/
inductive ApiError where
  | Request (error : RequestError)
  | AuthenticationError
  | UnknownError
  | UrlError
  | ParseError (text : String)
  | ConnectionError
  | LoggedOut
  | UsageError
deriving DecidableEq

/-- Client from api_client (client.rs): base URL plus optional token.
Field `base_url` embeds the Rust field `_base_url`, `token` embeds
`_token` (and doubles as the accessor `Client::token`, which just
clones the field). -/
structure Client where
  base_url : String
  token : Option String
deriving DecidableEq

/-- Client::new — creates a client with a base URL and no token. -/
def Client.new (base : String) : Client :=
  { base_url := base, token := none }

/-- Client::url — retrieves the base URL. -/
def Client.url (c : Client) : String :=
  c.base_url

/-- Client::is_authenticated — token presence. -/
def Client.is_authenticated (c : Client) : Bool :=
  c.token.isSome

/-- Auth from api_client (client.rs): token or username/password login. -/
inductive Auth where
  | Token (token : String)
  | Login (username : String) (password : String)
deriving DecidableEq

/-! URL model.  `Api::url` uses the external `url` crate:
`Url::parse(base)` followed by `.join("/api" ++ endpoint)`.  We embed
the crate's behaviour on already-normalized URLs (lowercase scheme,
plain ASCII host, no percent-encoding or dot-segment normalization
needed): a parsed URL is a scheme, a host part (everything between
`://` and the first `/`, including any port), and a path (serialized
as `/` when absent, as the crate does for special schemes); joining an
absolute-path reference replaces the path. -/

/-- Url record: scheme, host part, and path (always starting with `/`). -/
structure Url where
  scheme : String
  host : String
  path : String
deriving DecidableEq

/-- Helper splitting a character list at the first occurrence of `://`,
returning the part before and the part after.  None when `://` does not
occur, which is exactly when `Url::parse` fails with a relative-URL
error. -/
def splitScheme : List Char → Option (List Char × List Char)
  | [] => none
  | ':' :: '/' :: '/' :: rest => some ([], rest)
  | c :: rest =>
    match splitScheme rest with
    | some (a, b) => some (c :: a, b)
    | none => none

/-- Url::parse, embedded for normalized absolute URLs: requires a
nonempty scheme before `://` and a nonempty host; the host part extends
to the first `/`; an empty path serializes as `/`. -/
def parseUrl (s : String) : Option Url :=
  match splitScheme s.data with
  | none => none
  | some (schemeChars, rest) =>
    if schemeChars = [] then none
    else
      let hostChars := rest.takeWhile (fun c => c ≠ '/')
      let pathChars := rest.dropWhile (fun c => c ≠ '/')
      if hostChars = [] then none
      else some ⟨⟨schemeChars⟩, ⟨hostChars⟩, if pathChars = [] then "/" else ⟨pathChars⟩⟩

/-- Url serialization: scheme ++ :// ++ host ++ path. -/
def Url.render (u : Url) : String :=
  u.scheme ++ "://" ++ u.host ++ u.path

/-- Url::join for the references the executor builds: an absolute-path
reference (starting with `/`) replaces the base URL's path.  The
executor always joins `"/api" ++ endpoint`, which starts with `/`; the
non-absolute case is never reached and is modelled as a join failure. -/
def Url.join (u : Url) (ref : String) : Option Url :=
  match ref.data with
  | '/' :: _ => some { u with path := ref }
  | _ => none

/-- Api::url (api.rs lines 41-51): parse the base URL, join
`"/api" ++ endpoint`, and map either failure to UrlError. -/
def Api.url (c : Client) (endpoint : String) : Except ApiError String :=
  match parseUrl c.url with
  | some result =>
    match result.join ("/api" ++ endpoint) with
    | some joined => .ok joined.render
    | none => .error ApiError.UrlError
  | none => .error ApiError.UrlError

/-! JSON layer.  serde_json values are embedded as a small AST; a
response body is either text that fails JSON parsing (kept for the
ParseError diagnostic) or a parsed value, whose raw text is identified
with its rendering.  Deserializing a caller-chosen target type `T`
(`T: DeserializeOwned` in the source) is a parameter `decodeT`. -/

/-- Json value AST standing for serde_json::Value. -/
inductive Json where
  | null
  | bool (b : Bool)
  | num (n : Int)
  | str (s : String)
  | arr (elems : List Json)
  | obj (fields : List (String × Json))

mutual

/-- Rendering of a Json value back to text (escaping not modelled; the
claims never inspect text of values containing special characters). -/
def Json.render : Json → String
  | .null => "null"
  | .bool b => if b then "true" else "false"
  | .num n => toString n
  | .str s => "\x22" ++ s ++ "\x22"
  | .arr elems => "[" ++ Json.renderElems elems ++ "]"
  | .obj fields => "\x7b" ++ Json.renderFields fields ++ "\x7d"

/-- Rendering of array elements, comma separated. -/
def Json.renderElems : List Json → String
  | [] => ""
  | [x] => Json.render x
  | x :: xs => Json.render x ++ "," ++ Json.renderElems xs

/-- Rendering of object fields, comma separated. -/
def Json.renderFields : List (String × Json) → String
  | [] => ""
  | [(k, v)] => "\x22" ++ k ++ "\x22:" ++ Json.render v
  | (k, v) :: fs => "\x22" ++ k ++ "\x22:" ++ Json.render v ++ "," ++ Json.renderFields fs

end

/-- Field lookup on a Json object (serde's field matching; order
irrelevant, first match wins). -/
def Json.lookup (j : Json) (key : String) : Option Json :=
  match j with
  | .obj fields => fields.lookup key
  | _ => none

/-- ResponseModel from api_models::responses (models.rs): the server's
`{code, data}` envelope; `data` stays an opaque Json value. -/
structure ResponseModel where
  code : Nat
  data : Json

/-- Deserialization of ResponseModel from a Json value, as serde does
for the derived struct: both fields required, `code` a u16 number. -/
def decodeResponseModel (j : Json) : Option ResponseModel :=
  match j.lookup "code", j.lookup "data" with
  | some (.num n), some d =>
    if 0 ≤ n ∧ n < 65536 then some ⟨n.toNat, d⟩ else none
  | _, _ => none

/-- Deserialization of the Rust unit type `()` from Json: serde accepts
exactly null. -/
def decodeUnit : Json → Option Unit
  | .null => some ()
  | _ => none

/-- HttpResponse: transport-level view of a reqwest::Response.  `body`
is none when reading the body text fails (`resp.text()` errors), some
(.error raw) when the text raw is not valid JSON, and some (.ok j) when
it parses to j. -/
structure HttpResponse where
  status : Nat
  body : Option (Except String Json)

/-- Predicate for reqwest's `error_for_status`: client and server error
statuses (400-599) convert the response into an error. -/
def isErrorStatus (status : Nat) : Bool :=
  400 ≤ status && status < 600

/-- Display text reqwest attaches to a status error (`resp.to_string()`);
the exact wording is the transport library's and is modelled abstractly,
no claim inspects it. -/
def statusReason (status : Nat) : String :=
  "HTTP status error " ++ toString status

/-- RequestError produced from an error-status response (api.rs lines
103-108 and 132-137): `resp.status().map_or(0, ...)` is the status
itself on this path, and the reason is the display text. -/
def requestFailure (status : Nat) : ApiError :=
  ApiError.Request ⟨status, some (statusReason status)⟩

/-- Outcome of running a Rust function that may panic: calls to
`.unwrap()` on an error value abort instead of returning. -/
inductive RustOutcome (α : Type) where
  | panicked
  | returns (val : α)
deriving DecidableEq

/-- RequestBuilder: the data the executor has put into a
reqwest::RequestBuilder (method, url, headers, query pairs). -/
structure RequestBuilder where
  method : Method
  url : String
  headers : List (String × String)
  query : List (String × String)
deriving DecidableEq

/-- Default headers installed by Api::http (api.rs lines 53-65). -/
def defaultHeaders : List (String × String) :=
  [("Accept", "application/json"), ("Content-Type", "application/json")]

/-- Api::request (api.rs lines 68-83): build the URL, start a builder
with the default headers, and add `Authorization: Token <token>` when a
token is present.  Building the reqwest client from static headers
cannot fail, so the UnknownError branch for it is dead and not
modelled; a URL failure is reported as UrlError. -/
def Api.request (c : Client) (endpoint : String) (method : Method) :
    Except ApiError RequestBuilder :=
  match Api.url c endpoint with
  | .ok u =>
    let base : RequestBuilder := ⟨method, u, defaultHeaders, []⟩
    match c.token with
    | some t => .ok { base with headers := base.headers ++ [("Authorization", "Token " ++ t)] }
    | none => .ok base
  | .error _ => .error ApiError.UrlError

/-- Api::extract_response (api.rs lines 86-110): on an error status,
return the Request error; otherwise read the body text — the source
calls `.unwrap()` on that read, so a failed read panics — parse the
envelope, and decode `data` into the target type; either parse failure
yields ParseError carrying the raw text. -/
def Api.extract_response {T : Type} (decodeT : Json → Option T) (resp : HttpResponse) :
    RustOutcome (Except ApiError T) :=
  if isErrorStatus resp.status then
    .returns (.error (requestFailure resp.status))
  else
    match resp.body with
    | none => .panicked
    | some (.error raw) => .returns (.error (ApiError.ParseError raw))
    | some (.ok j) =>
      match decodeResponseModel j with
      | none => .returns (.error (ApiError.ParseError j.render))
      | some rm =>
        match decodeT rm.data with
        | none => .returns (.error (ApiError.ParseError j.render))
        | some v => .returns (.ok v)

/-- Api::delete (api.rs lines 125-143): build the request (propagating
its error with `?`), send it (`net` is the transport outcome, none for
a connection failure), and return Ok(()) on a non-error status without
touching the body; an error status maps to the Request error. -/
def Api.delete (c : Client) (endpoint : String) (net : Option HttpResponse) :
    Except ApiError Unit :=
  match Api.request c endpoint Method.DELETE with
  | .error e => .error e
  | .ok _ =>
    match net with
    | none => .error ApiError.ConnectionError
    | some resp =>
      if isErrorStatus resp.status then .error (requestFailure resp.status)
      else .ok ()

/-- User from api_models::users (models.rs). -/
structure User where
  username : String
  email : Option String
  created : Option Int
deriving DecidableEq

/-- Login response from api_models::responses (models.rs). -/
structure Login where
  access_token : String
  user : User
deriving DecidableEq

/-- PostAppearance from api_models::posts (models.rs). -/
inductive PostAppearance where
  | SansSerif
  | Serif
  | Wrap
  | Mono
  | Code
deriving DecidableEq

/-- Collection from api_models::collections (models.rs): domain fields
plus the optional back-reference to the Client that fetched it. -/
structure Collection where
  client : Option Client
  «alias» : String
  title : String
  description : Option String
  style_sheet : Option String
  public : Bool
  views : Option Nat
  verification_link : Option String
  total_posts : Option Nat
deriving DecidableEq

/-- Collection::with_client (models.rs lines 443-446): attach a Client
and return the updated value. -/
def Collection.with_client (c : Collection) (client : Client) : Collection :=
  { c with client := some client }

/-- Post from api_models::posts (models.rs): domain fields plus the
optional back-reference to the Client.  Timestamps are opaque (Int). -/
structure Post where
  client : Option Client
  id : String
  slug : Option String
  appearance : Option PostAppearance
  language : Option String
  rtl : Bool
  created : Option Int
  title : Option String
  body : String
  tags : List String
  views : Option Nat
  collection : Option Collection
  token : Option String
deriving DecidableEq

/-- Post::with_client (models.rs lines 142-145): attach a Client and
return the updated value. -/
def Post.with_client (p : Post) (client : Client) : Post :=
  { p with client := some client }

/-- MovePost from api_models::collections (models.rs): id plus optional
per-post access token. -/
structure MovePost where
  id : String
  token : Option String
deriving DecidableEq

/-- MovePost::new — id only, no token. -/
def MovePost.new (id : String) : MovePost :=
  ⟨id, none⟩

/-- MoveResult from api_models::collections (models.rs): untagged union
of a per-item success (code and affected Post) or failure (code and
message). -/
inductive MoveResult where
  | Success (code : Nat) (post : Post)
  | Error (code : Nat) (error_msg : String)
deriving DecidableEq

/-! Handler-level operations.  A network round trip made through
`Api::get` / `Api::post` is abstracted as an oracle giving the typed
outcome the calling code observes (`Result<T, ApiError>`); for the
batch endpoint the oracle is a function of the serialized request
items, so that what was sent is visible in the statements.  `Api::delete`
round trips keep the transport-level `Option HttpResponse` oracle since
their handling never parses the body. -/

/-- Collection::delete (models.rs lines 473-482): requires the attached
Client (UsageError otherwise) and delegates to Api::delete on the
collection's endpoint. -/
def Collection.delete (c : Collection) (net : Option HttpResponse) :
    Except ApiError Unit :=
  match c.client with
  | none => .error ApiError.UsageError
  | some client => Api.delete client ("/collections/" ++ c.«alias») net

/-- Collection::take_posts (models.rs lines 515-546): requires the
attached Client; POSTs the MovePost list to the collect endpoint (`net`
maps the sent list to the parsed response) and tags each returned
MoveResult, re-attaching the Client to every Success payload and
passing every Error through as an Err value. -/
def Collection.take_posts (c : Collection) (posts : List MovePost)
    (net : List MovePost → Except ApiError (List MoveResult)) :
    Except ApiError (List (Except MoveResult MoveResult)) :=
  match c.client with
  | none => .error ApiError.UsageError
  | some client =>
    match net posts with
    | .ok results =>
      .ok (results.map (fun r =>
        match r with
        | .Success code post => .ok (.Success code (post.with_client client))
        | .Error code error_msg => .error (.Error code error_msg)))
    | .error e => .error e

/-- CollectionHandler from api_handlers (handlers.rs). -/
structure CollectionHandler where
  client : Client
deriving DecidableEq

/-- CollectionHandler::new (handlers.rs lines 170-174). -/
def CollectionHandler.new (client : Client) : CollectionHandler :=
  ⟨client⟩

/-- CollectionHandler::get (handlers.rs lines 199-205): fetch the
collection (`net` is the parsed GET outcome) and attach the Client. -/
def CollectionHandler.get (h : CollectionHandler) (net : Except ApiError Collection) :
    Except ApiError Collection :=
  match net with
  | .ok v => .ok (v.with_client h.client)
  | .error e => .error e

/-- CollectionHandler::create (handlers.rs lines 177-196): UsageError
when alias and title are both absent, LoggedOut when unauthenticated —
both checked before any request is made — otherwise POST the params and
attach the Client to the result.  The second component counts network
round trips. -/
def CollectionHandler.create (h : CollectionHandler) (aliasArg title : Option String)
    (net : Except ApiError Collection) : Except ApiError Collection × Nat :=
  if aliasArg.isNone && title.isNone then
    (.error ApiError.UsageError, 0)
  else if !h.client.is_authenticated then
    (.error ApiError.LoggedOut, 0)
  else
    match net with
    | .ok v => (.ok (v.with_client h.client), 1)
    | .error e => (.error e, 1)

/-- Client::collections (client.rs lines 151-153). -/
def Client.collections (c : Client) : CollectionHandler :=
  CollectionHandler.new c

/-- Client::authenticate (client.rs lines 83-99), with `&mut self`
made explicit: returns (result, final state, network round trips).
Token auth stores the token directly; Login auth exchanges the pair at
/auth/login (`net` is the parsed POST outcome) and stores the returned
access token on success, propagating the error untouched otherwise. -/
def Client.authenticate (c : Client) (auth : Auth) (net : Except ApiError Login) :
    Except ApiError Client × Client × Nat :=
  match auth with
  | .Token token =>
    let c' := { c with token := some token }
    (.ok c', c', 0)
  | .Login _ _ =>
    match net with
    | .ok data =>
      let c' := { c with token := some data.access_token }
      (.ok c', c', 1)
    | .error e => (.error e, c, 1)

/-- Client::logout (client.rs lines 102-114), with `&mut self` made
explicit: LoggedOut when no token is present; otherwise DELETE
/auth/me through Api::delete and clear the token only when that
succeeds. -/
def Client.logout (c : Client) (net : Option HttpResponse) :
    Except ApiError Client × Client :=
  if c.is_authenticated then
    match Api.delete c "/auth/me" net with
    | .ok _ =>
      let c' := { c with token := none }
      (.ok c', c')
    | .error e => (.error e, c)
  else
    (.error ApiError.LoggedOut, c)

/-- UserHandler from api_handlers (handlers.rs). -/
structure UserHandler where
  client : Client
  current : Option User
deriving DecidableEq

/-- UserHandler::new (handlers.rs lines 24-39): always constructs;
when the Client is authenticated it preloads /me (`meNet` is the parsed
GET outcome), swallowing a failure into None; when unauthenticated it
makes no request and caches None. -/
def UserHandler.new (client : Client) (meNet : Except ApiError User) : UserHandler :=
  if client.is_authenticated then
    ⟨client, match meNet with | .ok user => some user | .error _ => none⟩
  else
    ⟨client, none⟩

/-- UserHandler::info (handlers.rs lines 42-44). -/
def UserHandler.info (h : UserHandler) : Option User :=
  h.current

/-- UserHandler::posts (handlers.rs lines 47-61): LoggedOut without a
request when unauthenticated; otherwise GET /me/posts and attach the
Client to every Post.  Second component counts network round trips. -/
def UserHandler.posts (h : UserHandler) (net : Except ApiError (List Post)) :
    Except ApiError (List Post) × Nat :=
  if h.client.is_authenticated then
    match net with
    | .ok v => (.ok (v.map (fun x => x.with_client h.client)), 1)
    | .error e => (.error e, 1)
  else
    (.error ApiError.LoggedOut, 0)

/-- UserHandler::post (handlers.rs lines 64-74): LoggedOut without a
request when unauthenticated; otherwise GET the post and attach the
Client. -/
def UserHandler.post (h : UserHandler) (id : String) (net : Except ApiError Post) :
    Except ApiError Post × Nat :=
  if h.client.is_authenticated then
    match net with
    | .ok v => (.ok (v.with_client h.client), 1)
    | .error e => (.error e, 1)
  else
    (.error ApiError.LoggedOut, 0)

/-- UserHandler::collections (handlers.rs lines 77-91): LoggedOut
without a request when unauthenticated; otherwise GET /me/collections
and attach the Client to every Collection. -/
def UserHandler.collections (h : UserHandler) (net : Except ApiError (List Collection)) :
    Except ApiError (List Collection) × Nat :=
  if h.client.is_authenticated then
    match net with
    | .ok v => (.ok (v.map (fun x => x.with_client h.client)), 1)
    | .error e => (.error e, 1)
  else
    (.error ApiError.LoggedOut, 0)

/-- UserHandler::collection (handlers.rs lines 94-104): LoggedOut
without a request when unauthenticated; otherwise GET the collection
and attach the Client. -/
def UserHandler.collection (h : UserHandler) (aliasArg : String)
    (net : Except ApiError Collection) : Except ApiError Collection × Nat :=
  if h.client.is_authenticated then
    match net with
    | .ok v => (.ok (v.with_client h.client), 1)
    | .error e => (.error e, 1)
  else
    (.error ApiError.LoggedOut, 0)

/-- Client::user (client.rs lines 137-143): LoggedOut when
unauthenticated, checked before UserHandler::new runs; otherwise the
constructed handler. -/
def Client.user (c : Client) (meNet : Except ApiError User) :
    Except ApiError UserHandler :=
  if c.is_authenticated then
    .ok (UserHandler.new c meNet)
  else
    .error ApiError.LoggedOut

/-- Post::delete (models.rs lines 173-190): requires the attached
Client; builds the DELETE request and calls `.unwrap()` on it, so a
request-building failure (malformed base URL) panics instead of
returning an error; when unauthenticated and holding a per-post token,
appends it as a query parameter; sends, and — unlike Api::delete —
pipes the response through extract_response with target type `()`. -/
def Post.delete (p : Post) (net : Option HttpResponse) :
    RustOutcome (Except ApiError Unit) :=
  match p.client with
  | none => .returns (.error ApiError.UsageError)
  | some client =>
    match Api.request client ("/posts/" ++ p.id) Method.DELETE with
    | .error _ => .panicked
    | .ok request =>
      let _request :=
        if !client.is_authenticated && p.token.isSome then
          { request with query := request.query ++ [("token", p.token.getD "")] }
        else request
      match net with
      | none => .returns (.error ApiError.ConnectionError)
      | some resp => Api.extract_response decodeUnit resp

/-- Post::move_to (models.rs lines 193-215): requires the attached
Client; resolves the target collection through
Client::collections().get (`collNet` is that GET's parsed outcome),
then calls take_posts with the single-item list — token-free when
authenticated, carrying the post's own token otherwise — and unwraps
the first batch entry into a plain MoveResult (either variant as Ok);
an empty batch yields UnknownError and a resolution failure is
propagated. -/
def Post.move_to (p : Post) (collNet : Except ApiError Collection)
    (net : List MovePost → Except ApiError (List MoveResult)) :
    Except ApiError MoveResult :=
  match p.client with
  | none => .error ApiError.UsageError
  | some client =>
    match (Client.collections client).get collNet with
    | .ok coll =>
      let batch :=
        match client.is_authenticated with
        | true => coll.take_posts [MovePost.new p.id] net
        | false => coll.take_posts [⟨p.id, p.token⟩] net
      match batch with
      | .ok v =>
        match v.head? with
        | some (.ok result) => .ok result
        | some (.error result) => .ok result
        | none => .error ApiError.UnknownError
      | .error e => .error e
    | .error e => .error e

/-- Sample authenticated client used to instantiate theorems. -/
def sampleClient : Client := ⟨"http://example.com", some "secret"⟩

/-- Sample unauthenticated client. -/
def anonClient : Client := Client.new "http://example.com"

/-- Sample post attached to sampleClient. -/
def samplePost : Post :=
  ⟨some sampleClient, "42", none, none, none, false, none, none, "hi", [], none, none, none⟩

/-- Sample post whose attached client has an unparseable base URL. -/
def badUrlPost : Post := { samplePost with client := some ⟨"not a url", some "secret"⟩ }

/-- Sample collection attached to sampleClient. -/
def sampleCollection : Collection := ⟨some sampleClient, "c", "t", none, none, true, none, none, none⟩

/-- Helper: the reference the executor joins always starts with a slash. -/
theorem api_ref_data (endpoint : String) :
    ("/api" ++ endpoint).data = '/' :: 'a' :: 'p' :: 'i' :: endpoint.data := by
  rw [String.data_append]
  rfl

/-- C1 (amended): for every client whose base URL parses and is exactly
scheme://host (no path component, no trailing slash), the composed URL
is the concatenation base ++ "/api" ++ endpoint; a base URL that does
not parse yields UrlError. -/
theorem api_url_concat_of_rootless_base (c : Client) (endpoint : String) :
    (∀ u : Url, parseUrl c.url = some u → c.url = u.scheme ++ "://" ++ u.host →
      Api.url c endpoint = .ok (c.url ++ "/api" ++ endpoint)) ∧
    (parseUrl c.url = none → Api.url c endpoint = .error ApiError.UrlError) := by
  constructor
  · intro u h1 h2
    unfold Api.url
    rw [h1]
    unfold Url.join
    rw [api_ref_data]
    simp only [Url.render]
    rw [h2]
    simp [String.append_assoc]
  · intro h
    unfold Api.url
    rw [h]

/-- C1 witness: concrete instance of the composition equality and of
the UrlError case. -/
theorem api_url_concat_of_rootless_base_witness :
    Api.url (Client.new "http://example.com") "/posts" =
      .ok ("http://example.com" ++ "/api" ++ "/posts") ∧
    Api.url (Client.new "not a url") "/posts" = .error ApiError.UrlError :=
  ⟨(api_url_concat_of_rootless_base (Client.new "http://example.com") "/posts").1
      ⟨"http", "example.com", "/"⟩ rfl rfl,
   (api_url_concat_of_rootless_base (Client.new "not a url") "/posts").2 rfl⟩

/-- C1 counterexample: the base URL "http://example.com/" is valid
(it parses), yet the composed URL is not the string concatenation
base ++ "/api" ++ endpoint — the join replaces the trailing slash. -/
theorem api_url_concat_counterexample :
    parseUrl (Client.new "http://example.com/").url = some ⟨"http", "example.com", "/"⟩ ∧
    Api.url (Client.new "http://example.com/") "/posts" = .ok "http://example.com/api/posts" ∧
    "http://example.com/api/posts" ≠ "http://example.com/" ++ "/api" ++ "/posts" :=
  ⟨rfl, rfl, by decide⟩

/-- C2 (amended): once the HTTP status check passes, Api::delete and
Collection::delete return success with no value regardless of the
response body; Post::delete instead pipes the response through
extract_response with target type unit, so its result is exactly the
envelope-unwrapping outcome. -/
theorem delete_skips_envelope_except_post (resp : HttpResponse) :
    (∀ (c : Client) (endpoint : String) (req : RequestBuilder),
      Api.request c endpoint Method.DELETE = .ok req →
      isErrorStatus resp.status = false →
      Api.delete c endpoint (some resp) = .ok ()) ∧
    (∀ (coll : Collection) (cl : Client) (req : RequestBuilder),
      coll.client = some cl →
      Api.request cl ("/collections/" ++ coll.«alias») Method.DELETE = .ok req →
      isErrorStatus resp.status = false →
      Collection.delete coll (some resp) = .ok ()) ∧
    (∀ (p : Post) (cl : Client) (req : RequestBuilder),
      p.client = some cl →
      Api.request cl ("/posts/" ++ p.id) Method.DELETE = .ok req →
      Post.delete p (some resp) = Api.extract_response decodeUnit resp) := by
  refine ⟨?_, ?_, ?_⟩
  · intro c endpoint req hreq hstatus
    simp [Api.delete, hreq, hstatus]
  · intro coll cl req hcoll hreq hstatus
    simp [Collection.delete, hcoll, Api.delete, hreq, hstatus]
  · intro p cl req hp hreq
    simp [Post.delete, hp, hreq]

/-- C2 witness: concrete instances of all three conjuncts, with a
response whose body would not parse as an envelope. -/
theorem delete_skips_envelope_except_post_witness :
    Api.delete sampleClient "/x" (some ⟨204, some (.error "")⟩) = .ok () ∧
    Collection.delete sampleCollection (some ⟨204, some (.error "")⟩) = .ok () ∧
    Post.delete samplePost (some ⟨204, some (.error "")⟩) =
      Api.extract_response decodeUnit ⟨204, some (.error "")⟩ :=
  ⟨(delete_skips_envelope_except_post ⟨204, some (.error "")⟩).1 sampleClient "/x"
      ⟨Method.DELETE, "http://example.com/api/x",
        defaultHeaders ++ [("Authorization", "Token " ++ "secret")], []⟩ rfl rfl,
   (delete_skips_envelope_except_post ⟨204, some (.error "")⟩).2.1 sampleCollection sampleClient
      ⟨Method.DELETE, "http://example.com/api/collections/c",
        defaultHeaders ++ [("Authorization", "Token " ++ "secret")], []⟩ rfl rfl rfl,
   (delete_skips_envelope_except_post ⟨204, some (.error "")⟩).2.2 samplePost sampleClient
      ⟨Method.DELETE, "http://example.com/api/posts/42",
        defaultHeaders ++ [("Authorization", "Token " ++ "secret")], []⟩ rfl rfl⟩

/-- C2 counterexample: a Post::delete response passes the status check
(200) but carries a body that is valid JSON and not a response
envelope; the operation returns ParseError, not success, so delete
operations do not uniformly skip envelope unwrapping. -/
theorem post_delete_unwraps_envelope_counterexample :
    isErrorStatus 200 = false ∧
    Post.delete samplePost (some ⟨200, some (.ok (Json.obj []))⟩) =
      .returns (.error (ApiError.ParseError "\x7b\x7d")) ∧
    Post.delete samplePost (some ⟨200, some (.ok (Json.obj []))⟩) ≠
      .returns (.ok ()) := by
  refine ⟨rfl, rfl, fun h => ?_⟩
  have heq : (RustOutcome.returns (Except.error (ApiError.ParseError "\x7b\x7d")) :
      RustOutcome (Except ApiError Unit)) = RustOutcome.returns (Except.ok ()) := by
    calc (RustOutcome.returns (Except.error (ApiError.ParseError "\x7b\x7d")) :
        RustOutcome (Except ApiError Unit))
        = Post.delete samplePost (some ⟨200, some (.ok (Json.obj []))⟩) := rfl
      _ = RustOutcome.returns (Except.ok ()) := h
  simp at heq

/-- C3: the code can panic — Post::delete calls `.unwrap()` on the
request builder, so a Post attached to a client with an unparseable
base URL panics instead of returning UrlError, and extract_response
calls `.unwrap()` on the body-text read, so an unreadable body panics
instead of returning a typed error. -/
theorem post_delete_and_extract_response_can_panic :
    Post.delete badUrlPost none = .panicked ∧
    Api.extract_response decodeUnit ⟨200, none⟩ =
      (.panicked : RustOutcome (Except ApiError Unit)) :=
  ⟨rfl, rfl⟩

/-- C4: with an attached Client, when the batch response parallels the
N input items, take_posts returns N tagged outcomes in the order of the
response list: every Success gets the Client re-attached to its Post
payload and every Error passes through unchanged. -/
theorem take_posts_parallel_tagged (coll : Collection) (cl : Client)
    (posts : List MovePost) (net : List MovePost → Except ApiError (List MoveResult))
    (results : List MoveResult)
    (hc : coll.client = some cl) (hn : net posts = .ok results)
    (hlen : results.length = posts.length) :
    ∃ outs : List (Except MoveResult MoveResult),
      coll.take_posts posts net = .ok outs ∧
      outs.length = posts.length ∧
      (∀ (i code : Nat) (post : Post), results[i]? = some (.Success code post) →
        outs[i]? = some (.ok (.Success code (post.with_client cl)))) ∧
      (∀ (i code : Nat) (msg : String), results[i]? = some (.Error code msg) →
        outs[i]? = some (.error (.Error code msg))) := by
  refine ⟨results.map (fun r =>
      match r with
      | .Success code post => .ok (.Success code (post.with_client cl))
      | .Error code error_msg => .error (.Error code error_msg)), ?_, ?_, ?_, ?_⟩
  · simp only [Collection.take_posts, hc, hn]
  · simpa using hlen
  · intro i code post hi
    simp [List.getElem?_map, hi]
  · intro i code msg hi
    simp [List.getElem?_map, hi]

/-- C4 witness: a two-item batch whose response mixes one success and
one failure, in reverse id order. -/
theorem take_posts_parallel_tagged_witness :
    ∃ outs : List (Except MoveResult MoveResult),
      sampleCollection.take_posts [⟨"1", none⟩, ⟨"2", none⟩]
        (fun _ => .ok [.Error 404 "nope", .Success 200 samplePost]) = .ok outs ∧
      outs.length = ([⟨"1", none⟩, ⟨"2", none⟩] : List MovePost).length ∧
      (∀ (i code : Nat) (post : Post),
        ([MoveResult.Error 404 "nope", MoveResult.Success 200 samplePost])[i]? =
          some (.Success code post) →
        outs[i]? = some (.ok (.Success code (post.with_client sampleClient)))) ∧
      (∀ (i code : Nat) (msg : String),
        ([MoveResult.Error 404 "nope", MoveResult.Success 200 samplePost])[i]? =
          some (.Error code msg) →
        outs[i]? = some (.error (.Error code msg))) :=
  take_posts_parallel_tagged sampleCollection sampleClient _ _ _ rfl rfl rfl

/-- C5: with an attached Client, move_to propagates a collection
resolution failure; otherwise it submits the single-item batch whose
MovePost carries no token when the Client is authenticated and the
post's own token otherwise, and unwraps the first batch entry into a
plain Ok MoveResult (Success with the Client re-attached, Error
unchanged), yielding UnknownError on an empty batch and propagating a
batch error. -/
theorem move_to_unwraps_single_batch (p : Post) (cl : Client)
    (collNet : Except ApiError Collection)
    (net : List MovePost → Except ApiError (List MoveResult))
    (hp : p.client = some cl) :
    (∀ e : ApiError, collNet = .error e → p.move_to collNet net = .error e) ∧
    (∀ c0 : Collection, collNet = .ok c0 →
      (net [⟨p.id, if cl.is_authenticated then none else p.token⟩] = .ok [] →
        p.move_to collNet net = .error ApiError.UnknownError) ∧
      (∀ (code : Nat) (post : Post) (rest : List MoveResult),
        net [⟨p.id, if cl.is_authenticated then none else p.token⟩] =
          .ok (.Success code post :: rest) →
        p.move_to collNet net = .ok (.Success code (post.with_client cl))) ∧
      (∀ (code : Nat) (msg : String) (rest : List MoveResult),
        net [⟨p.id, if cl.is_authenticated then none else p.token⟩] =
          .ok (.Error code msg :: rest) →
        p.move_to collNet net = .ok (.Error code msg)) ∧
      (∀ e : ApiError, net [⟨p.id, if cl.is_authenticated then none else p.token⟩] = .error e →
        p.move_to collNet net = .error e)) := by
  constructor
  · intro e he
    simp [Post.move_to, hp, he, Client.collections, CollectionHandler.new, CollectionHandler.get]
  · intro c0 hc0
    cases hauth : cl.is_authenticated
    · refine ⟨?_, ?_, ?_, ?_⟩
      · intro hn
        simp only [hauth, Bool.false_eq_true, if_false] at hn
        simp [Post.move_to, hp, hc0, Client.collections, CollectionHandler.new,
          CollectionHandler.get, hauth, Collection.take_posts, Collection.with_client, hn]
      · intro code post rest hn
        simp only [hauth, Bool.false_eq_true, if_false] at hn
        simp [Post.move_to, hp, hc0, Client.collections, CollectionHandler.new,
          CollectionHandler.get, hauth, Collection.take_posts, Collection.with_client, hn]
      · intro code msg rest hn
        simp only [hauth, Bool.false_eq_true, if_false] at hn
        simp [Post.move_to, hp, hc0, Client.collections, CollectionHandler.new,
          CollectionHandler.get, hauth, Collection.take_posts, Collection.with_client, hn]
      · intro e hn
        simp only [hauth, Bool.false_eq_true, if_false] at hn
        simp [Post.move_to, hp, hc0, Client.collections, CollectionHandler.new,
          CollectionHandler.get, hauth, Collection.take_posts, Collection.with_client, hn]
    · refine ⟨?_, ?_, ?_, ?_⟩
      · intro hn
        simp only [hauth, if_true] at hn
        simp [Post.move_to, hp, hc0, Client.collections, CollectionHandler.new,
          CollectionHandler.get, hauth, Collection.take_posts, Collection.with_client,
          MovePost.new, hn]
      · intro code post rest hn
        simp only [hauth, if_true] at hn
        simp [Post.move_to, hp, hc0, Client.collections, CollectionHandler.new,
          CollectionHandler.get, hauth, Collection.take_posts, Collection.with_client,
          MovePost.new, hn]
      · intro code msg rest hn
        simp only [hauth, if_true] at hn
        simp [Post.move_to, hp, hc0, Client.collections, CollectionHandler.new,
          CollectionHandler.get, hauth, Collection.take_posts, Collection.with_client,
          MovePost.new, hn]
      · intro e hn
        simp only [hauth, if_true] at hn
        simp [Post.move_to, hp, hc0, Client.collections, CollectionHandler.new,
          CollectionHandler.get, hauth, Collection.take_posts, Collection.with_client,
          MovePost.new, hn]

/-- C5 witness: concrete instances — a resolution failure propagated,
an empty batch yielding UnknownError, and a success entry unwrapped
with the Client re-attached. -/
theorem move_to_unwraps_single_batch_witness :
    samplePost.move_to (.error (ApiError.Request ⟨500, none⟩)) (fun _ => .ok []) =
      .error (ApiError.Request ⟨500, none⟩) ∧
    samplePost.move_to (.ok sampleCollection) (fun _ => .ok []) =
      .error ApiError.UnknownError ∧
    samplePost.move_to (.ok sampleCollection)
        (fun _ => .ok [.Success 200 samplePost]) =
      .ok (.Success 200 (samplePost.with_client sampleClient)) :=
  ⟨(move_to_unwraps_single_batch samplePost sampleClient _ _ rfl).1 _ rfl,
   ((move_to_unwraps_single_batch samplePost sampleClient _ _ rfl).2 sampleCollection rfl).1 rfl,
   ((move_to_unwraps_single_batch samplePost sampleClient _ _ rfl).2 sampleCollection
      rfl).2.1 200 samplePost [] rfl⟩

/-- C6: logout on a tokenless client fails with LoggedOut and leaves
the state unchanged; on a client with a token it clears the token
exactly when the DELETE to /auth/me succeeds, and leaves the state
unchanged when it fails. -/
theorem logout_state_transitions (c : Client) (net : Option HttpResponse) :
    (c.token = none → c.logout net = (.error ApiError.LoggedOut, c)) ∧
    (∀ t : String, c.token = some t →
      (Api.delete c "/auth/me" net = .ok () →
        c.logout net = (.ok { c with token := none }, { c with token := none })) ∧
      (∀ e : ApiError, Api.delete c "/auth/me" net = .error e →
        c.logout net = (.error e, c))) := by
  constructor
  · intro hnone
    simp [Client.logout, Client.is_authenticated, hnone]
  · intro t ht
    constructor
    · intro hdel
      simp [Client.logout, Client.is_authenticated, ht, hdel]
    · intro e hdel
      simp [Client.logout, Client.is_authenticated, ht, hdel]

/-- C6 witness: concrete instances — an anonymous client fails with
LoggedOut, an authenticated client clears its token on a 204, and
keeps it on a connection failure. -/
theorem logout_state_transitions_witness :
    anonClient.logout none = (.error ApiError.LoggedOut, anonClient) ∧
    sampleClient.logout (some ⟨204, none⟩) =
      (.ok { sampleClient with token := none }, { sampleClient with token := none }) ∧
    sampleClient.logout none = (.error ApiError.ConnectionError, sampleClient) :=
  ⟨(logout_state_transitions anonClient none).1 rfl,
   ((logout_state_transitions sampleClient (some ⟨204, none⟩)).2 "secret" rfl).1 rfl,
   ((logout_state_transitions sampleClient none).2 "secret" rfl).2
      ApiError.ConnectionError rfl⟩

/-- C7: a username/password authentication the server rejects returns
the error unchanged, makes exactly one round trip, and leaves the
client state — in particular the token field — exactly as before. -/
theorem authenticate_rejected_preserves_token (c : Client)
    (username password : String) (e : ApiError) :
    Client.authenticate c (.Login username password) (.error e) = (.error e, c, 1) ∧
    ((Client.authenticate c (.Login username password) (.error e)).2.1).token = c.token :=
  ⟨rfl, rfl⟩

/-- C8: CollectionHandler::create with both alias and title absent
fails with UsageError and zero network calls, whatever the
authentication state; with at least one of them present but an
unauthenticated client it fails with LoggedOut, also with zero network
calls. -/
theorem collection_create_guards (h : CollectionHandler)
    (net : Except ApiError Collection) :
    h.create none none net = (.error ApiError.UsageError, 0) ∧
    (∀ aliasArg title : Option String, aliasArg.isSome ∨ title.isSome →
      h.client.is_authenticated = false →
      h.create aliasArg title net = (.error ApiError.LoggedOut, 0)) := by
  constructor
  · rfl
  · intro aliasArg title hsome hanon
    have hguard : (aliasArg.isNone && title.isNone) = false := by
      rcases hsome with h1 | h1
      · cases aliasArg <;> simp_all
      · cases title <;> simp_all
    simp [CollectionHandler.create, hguard, hanon]

/-- C8 witness: concrete instances of both guards on an unauthenticated
handler, and of the UsageError guard on an authenticated one. -/
theorem collection_create_guards_witness :
    (CollectionHandler.new anonClient).create none none (.error ApiError.UnknownError) =
      (.error ApiError.UsageError, 0) ∧
    (CollectionHandler.new sampleClient).create none none (.error ApiError.UnknownError) =
      (.error ApiError.UsageError, 0) ∧
    (CollectionHandler.new anonClient).create (some "a") none (.error ApiError.UnknownError) =
      (.error ApiError.LoggedOut, 0) :=
  ⟨(collection_create_guards (CollectionHandler.new anonClient)
      (.error ApiError.UnknownError)).1,
   (collection_create_guards (CollectionHandler.new sampleClient)
      (.error ApiError.UnknownError)).1,
   (collection_create_guards (CollectionHandler.new anonClient)
      (.error ApiError.UnknownError)).2 (some "a") none (Or.inl rfl) rfl⟩

/-- C9: authenticating with a literal token succeeds with zero network
calls and stores the token, after which the client is authenticated and
token() returns it; a freshly created client is unauthenticated; and
every request the executor builds for a client holding token t carries
the header Authorization: Token t. -/
theorem token_auth_and_authorization_header (c : Client) (t b endpoint : String)
    (m : Method) (netL : Except ApiError Login) :
    Client.authenticate c (.Token t) netL =
      (.ok { c with token := some t }, { c with token := some t }, 0) ∧
    ({ c with token := some t } : Client).is_authenticated = true ∧
    ({ c with token := some t } : Client).token = some t ∧
    (Client.new b).is_authenticated = false ∧
    (∀ (c' : Client) (req : RequestBuilder), c'.token = some t →
      Api.request c' endpoint m = .ok req →
      ("Authorization", "Token " ++ t) ∈ req.headers) := by
  refine ⟨rfl, rfl, rfl, rfl, ?_⟩
  intro c' req ht hreq
  unfold Api.request at hreq
  cases hurl : Api.url c' endpoint with
  | error e => rw [hurl] at hreq; exact absurd hreq (by simp)
  | ok u =>
    rw [hurl, ht] at hreq
    simp only [Except.ok.injEq] at hreq
    rw [← hreq]
    simp

/-- C9 witness: concrete instances — token authentication on a fresh
client, and the Authorization header on a request built by an
authenticated client. -/
theorem token_auth_and_authorization_header_witness :
    Client.authenticate anonClient (.Token "secret") (.error ApiError.UnknownError) =
      (.ok { anonClient with token := some "secret" },
        { anonClient with token := some "secret" }, 0) ∧
    ("Authorization", "Token " ++ "secret") ∈
      (⟨Method.GET, "http://example.com/api/posts/42",
        defaultHeaders ++ [("Authorization", "Token " ++ "secret")], []⟩ :
          RequestBuilder).headers :=
  ⟨(token_auth_and_authorization_header anonClient "secret" "b" "/posts/42" Method.GET
      (.error ApiError.UnknownError)).1,
   (token_auth_and_authorization_header anonClient "secret" "b" "/posts/42" Method.GET
      (.error ApiError.UnknownError)).2.2.2.2 sampleClient
      ⟨Method.GET, "http://example.com/api/posts/42",
        defaultHeaders ++ [("Authorization", "Token " ++ "secret")], []⟩ rfl rfl⟩

/-- C10: Client::user on an unauthenticated client fails with LoggedOut
for every possible preload outcome, before any handler exists; yet
UserHandler construction itself always yields a handler (with the given
client and an empty cache when unauthenticated), and each of its four
operations on an unauthenticated handler fails with LoggedOut making
zero network calls. -/
theorem unauthenticated_user_operations (c : Client) (meNet : Except ApiError User)
    (h : UserHandler) (id aliasArg : String)
    (netPosts : Except ApiError (List Post)) (netPost : Except ApiError Post)
    (netColls : Except ApiError (List Collection)) (netColl : Except ApiError Collection)
    (hc : c.is_authenticated = false) (hh : h.client.is_authenticated = false) :
    Client.user c meNet = .error ApiError.LoggedOut ∧
    UserHandler.new c meNet = ⟨c, none⟩ ∧
    h.posts netPosts = (.error ApiError.LoggedOut, 0) ∧
    h.post id netPost = (.error ApiError.LoggedOut, 0) ∧
    h.collections netColls = (.error ApiError.LoggedOut, 0) ∧
    h.collection aliasArg netColl = (.error ApiError.LoggedOut, 0) := by
  refine ⟨?_, ?_, ?_, ?_, ?_, ?_⟩
  · simp [Client.user, hc]
  · simp [UserHandler.new, hc]
  · simp [UserHandler.posts, hh]
  · simp [UserHandler.post, hh]
  · simp [UserHandler.collections, hh]
  · simp [UserHandler.collection, hh]

/-- C10 witness: concrete instance on an anonymous client and the
handler it would construct. -/
theorem unauthenticated_user_operations_witness :
    Client.user anonClient (.error ApiError.UnknownError) = .error ApiError.LoggedOut ∧
    UserHandler.new anonClient (.error ApiError.UnknownError) = ⟨anonClient, none⟩ ∧
    (⟨anonClient, none⟩ : UserHandler).posts (.ok []) = (.error ApiError.LoggedOut, 0) ∧
    (⟨anonClient, none⟩ : UserHandler).post "42" (.error ApiError.UnknownError) =
      (.error ApiError.LoggedOut, 0) ∧
    (⟨anonClient, none⟩ : UserHandler).collections (.ok []) = (.error ApiError.LoggedOut, 0) ∧
    (⟨anonClient, none⟩ : UserHandler).collection "c" (.error ApiError.UnknownError) =
      (.error ApiError.LoggedOut, 0) :=
  unauthenticated_user_operations anonClient (.error ApiError.UnknownError)
    ⟨anonClient, none⟩ "42" "c" (.ok []) (.error ApiError.UnknownError) (.ok [])
    (.error ApiError.UnknownError) rfl rfl

end Freely
